import Mathlib

/-!
Shallow embedding of src/receptor.py (DCMRouter), the DICOM C-STORE receptor.
Pure string helpers (clean_filename, shorten_uid) are translated directly.
Filesystem effects (mkdir, save_as, unlink, exists) are modelled by explicit
state passing over an FS record of existing directories and files, with an
Env record supplying the fault behaviour of the operating system (which
mkdir calls fail, whether save_as fails, whether a failed save leaves a
debris file, whether unlink fails) and the entropy consumed by the
generate_uid fallbacks.  Status codes are Nat literals as in the source.
-/

/-- DICOMServerConfig.OUTPUT_FOLDER from the source. -/
def OUTPUT_FOLDER : String := "estudios_recibidos"

/-- DICOMServerConfig.MAX_FOLDER_LENGTH from the source. -/
def MAX_FOLDER_LENGTH : Nat := 50

/-- The character class of the regex in clean_filename, r squared-bracket backslash slash star question colon quote lt gt pipe caret. -/
def badChar (c : Char) : Bool :=
  c = '\\' || c = '/' || c = '*' || c = '?' || c = ':' || c = '"' ||
  c = '<' || c = '>' || c = '|' || c = '^'

/-- Whitespace characters removed from the ends by the Python str.strip method
    (the Unicode whitespace set used by str.isspace). -/
def isStripWS (c : Char) : Bool :=
  c = ' ' || c = '\t' || c = '\n' || c = '\r' || c = '\x0b' || c = '\x0c' ||
  c = '\x1c' || c = '\x1d' || c = '\x1e' || c = '\x1f' || c = '\x85' || c = '\xa0' ||
  c = Char.ofNat 0x1680 || (Char.ofNat 0x2000 ≤ c && c ≤ Char.ofNat 0x200a) ||
  c = Char.ofNat 0x2028 || c = Char.ofNat 0x2029 || c = Char.ofNat 0x202f ||
  c = Char.ofNat 0x205f || c = Char.ofNat 0x3000

/-- One character of the re.sub call in clean_filename. -/
def sanitizeChar (c : Char) : Char := if badChar c then '_' else c

/-- One character of the replace call in clean_filename. -/
def spaceChar (c : Char) : Char := if c = ' ' then '_' else c

/-- The Python str.strip method on a list of characters. -/
def pyStrip (l : List Char) : List Char :=
  ((l.dropWhile isStripWS).reverse.dropWhile isStripWS).reverse

/-- clean_filename from the source.  The input is an Option so that the
    Python falsy check on None as well as on the empty string is captured. -/
def clean_filename : Option String → String
  | none => "Sin_nombre"
  | some s =>
    if s = "" then "Sin_nombre"
    else String.mk ((pyStrip ((s.data.map sanitizeChar).map spaceChar)).take MAX_FOLDER_LENGTH)

/-- shorten_uid from the source: the last 12 characters when longer than 12. -/
def shorten_uid (uid : String) : String :=
  if uid.length > 12 then String.mk (uid.data.drop (uid.length - 12)) else uid

/-- Models pydicom generate_uid with its default root prefix: the root
    concatenated with freshly drawn entropy digits, truncated to the 64
    character UID limit.  The entropy is supplied by the environment, one
    fresh value per call site. -/
def generate_uid (entropy : String) : String :=
  String.mk (("1.2.826.0.1.3680043.8.498.".data ++ entropy.data).take 64)

/-- The attributes of event.dataset that handle_store reads.  A present
    attribute (possibly with an empty value) is some, an absent one none,
    mirroring the Dataset.get calls of the source. -/
structure Dataset where
  PatientID : Option String
  PatientName : Option String
  StudyInstanceUID : Option String
  SeriesInstanceUID : Option String
  SOPInstanceUID : Option String
  Modality : Option String
  InstanceNumber : Option String
  StudyDate : Option String
deriving DecidableEq

/-- The fault and entropy environment of one handle_store invocation:
    which mkdir calls raise, whether save_as raises, whether a failed
    save_as leaves a debris file behind, whether the cleanup unlink raises,
    whether an unexpected exception is raised before step 1, and the
    entropy of the three generate_uid calls. -/
structure Env where
  mkdirFails : List String → Bool
  saveFails : Bool
  writeDebris : Bool
  unlinkFails : Bool
  unexpected : Bool
  genStudy : String
  genSeries : String
  genSop : String

/-- Filesystem state: the directories and the files that exist, each path
    being the list of its segments. -/
structure FS where
  dirs : List (List String)
  files : List (List String)
deriving DecidableEq

/-- The Python str.zfill method with width 4, as applied to the instance number. -/
def zfill4 (s : String) : String :=
  if s.length ≥ 4 then s
  else
    match s.data with
    | c :: rest =>
      if c = '+' || c = '-' then String.mk (c :: (List.replicate (4 - s.length) '0' ++ rest))
      else String.mk (List.replicate (4 - s.length) '0' ++ s.data)
    | [] => String.mk (List.replicate 4 '0')

/-- get_patient_folder_name from the source. -/
def get_patient_folder_name (ds : Dataset) : String :=
  clean_filename (some (ds.PatientName.getD ("Sin_nombre"))) ++ "_" ++
    clean_filename (some (ds.PatientID.getD ("Sin_ID")))

/-- study_uid of handle_store: the shortened StudyInstanceUID, with a fresh
    generated identifier substituted when the attribute is absent. -/
def resolvedStudyUid (ds : Dataset) (env : Env) : String :=
  shorten_uid (ds.StudyInstanceUID.getD (generate_uid env.genStudy))

/-- series_uid of handle_store. -/
def resolvedSeriesUid (ds : Dataset) (env : Env) : String :=
  shorten_uid (ds.SeriesInstanceUID.getD (generate_uid env.genSeries))

/-- sop_instance_uid of handle_store. -/
def resolvedSopUid (ds : Dataset) (env : Env) : String :=
  shorten_uid (ds.SOPInstanceUID.getD (generate_uid env.genSop))

/-- modality of handle_store, default XX. -/
def modalityOf (ds : Dataset) : String := ds.Modality.getD ("XX")

/-- instance_number of handle_store, default 0, zero filled to width 4. -/
def instanceNumberOf (ds : Dataset) : String := zfill4 (ds.InstanceNumber.getD ("0"))

/-- study_date of handle_store, default the empty string. -/
def studyDateOf (ds : Dataset) : String := ds.StudyDate.getD ("")

/-- The study folder segment built by handle_store. -/
def studyFolder (ds : Dataset) (env : Env) : String :=
  studyDateOf ds ++ "_E" ++ resolvedStudyUid ds env

/-- The series folder segment built by handle_store. -/
def seriesFolder (ds : Dataset) (env : Env) : String :=
  modalityOf ds ++ "_S" ++ resolvedSeriesUid ds env

/-- The filename built by handle_store. -/
def storeFileName (ds : Dataset) (env : Env) : String :=
  modalityOf ds ++ "_" ++ instanceNumberOf ds ++ "_" ++ resolvedSopUid ds env ++ ".dcm"

/-- The base path of handle_store; the absolute prefix of Path.absolute is
    immaterial to the model and dropped. -/
def basePath : List String := [OUTPUT_FOLDER]

/-- The three subfolder arguments handle_store passes to create_safe_path. -/
def storeLevels (ds : Dataset) (env : Env) : List String :=
  [get_patient_folder_name ds, studyFolder ds env, seriesFolder ds env]

/-- The fully resolved series level directory. -/
def targetDir (ds : Dataset) (env : Env) : List String := basePath ++ storeLevels ds env

/-- The fully resolved target file path. -/
def targetPath (ds : Dataset) (env : Env) : List String :=
  targetDir ds env ++ [storeFileName ds env]

/-- create_safe_path from the source: walk the subfolders, mkdir each level
    with exist_ok, return none at the first level whose mkdir raises,
    leaving the levels already created in place. -/
def create_safe_path (env : Env) (fs : FS) (path : List String) :
    List String → Option (List String) × FS
  | [] => (some path, fs)
  | f :: rest =>
    if (path ++ [f]) ∈ fs.dirs then create_safe_path env fs (path ++ [f]) rest
    else if env.mkdirFails (path ++ [f]) then (none, fs)
    else create_safe_path env { fs with dirs := (path ++ [f]) :: fs.dirs } (path ++ [f]) rest

/-- handle_store from the source.  Returns the DICOM status code and the
    filesystem after the call.  The outer try of the source is the
    env.unexpected branch; the inner try around save_as is the env.saveFails
    branch, whose cleanup unlink (missing_ok, bare except) is the erase. -/
def handle_store (ds : Dataset) (env : Env) (fs : FS) : Nat × FS :=
  if env.unexpected then (0xC003, fs)
  else
    match create_safe_path env fs basePath (storeLevels ds env) with
    | (none, fs1) => (0xC001, fs1)
    | (some safePath, fs1) =>
      let filepath := safePath ++ [storeFileName ds env]
      if filepath ∈ fs1.files ∨ filepath ∈ fs1.dirs then (0x0000, fs1)
      else if env.saveFails then
        let fs2 := if env.writeDebris then { fs1 with files := filepath :: fs1.files } else fs1
        let fs3 := if env.unlinkFails then fs2 else { fs2 with files := fs2.files.erase filepath }
        (0xC002, fs3)
      else (0x0000, { fs1 with files := filepath :: fs1.files })

/-- handle_echo from the source. -/
def handle_echo : Nat := 0x0000

/-- A concrete dataset with every attribute present. -/
def ds0 : Dataset :=
  { PatientID := some ("P1"), PatientName := some ("John Doe"),
    StudyInstanceUID := some ("1.2.840.10008.999999999999"),
    SeriesInstanceUID := some ("1.2.840.10008.555555555555"),
    SOPInstanceUID := some ("1.2.840.10008.777777777777"),
    Modality := some ("CT"), InstanceNumber := some ("3"),
    StudyDate := some ("20240101") }

/-- ds0 with the SOPInstanceUID attribute absent. -/
def dsNoSop : Dataset := { ds0 with SOPInstanceUID := none }

/-- ds0 with the StudyInstanceUID attribute absent. -/
def dsNoStudy : Dataset := { ds0 with StudyInstanceUID := none }

/-- A dataset with every attribute absent. -/
def dsBare : Dataset :=
  { PatientID := none, PatientName := none, StudyInstanceUID := none,
    SeriesInstanceUID := none, SOPInstanceUID := none, Modality := none,
    InstanceNumber := none, StudyDate := none }

/-- ds0 with the three UID attributes present but holding empty values. -/
def dsEmptyUids : Dataset :=
  { ds0 with StudyInstanceUID := some (""), SeriesInstanceUID := some (""),
             SOPInstanceUID := some ("") }

/-- ds0 with a modality and a study date containing path-illegal characters. -/
def dsIllegal : Dataset :=
  { ds0 with Modality := some ("C/T:x"), StudyDate := some ("2024/01?01") }

/-- A fault-free environment, entropy draw 1. -/
def envA : Env :=
  { mkdirFails := fun _ => false, saveFails := false, writeDebris := false,
    unlinkFails := false, unexpected := false,
    genStudy := "101", genSeries := "102", genSop := "103" }

/-- A fault-free environment, entropy draw 2 (a later call of generate_uid
    draws different entropy). -/
def envB : Env :=
  { mkdirFails := fun _ => false, saveFails := false, writeDebris := false,
    unlinkFails := false, unexpected := false,
    genStudy := "201", genSeries := "202", genSop := "203" }

/-- An environment in which every mkdir call raises. -/
def envMkdirFail : Env := { envA with mkdirFails := fun _ => true }

/-- An environment in which save_as raises, leaving a debris file that the
    cleanup unlink can remove. -/
def envSaveFail : Env := { envA with saveFails := true, writeDebris := true }

/-- The empty filesystem. -/
def fs0 : FS := { dirs := [], files := [] }

/-- The character list of String.mk is its argument. -/
theorem data_mk (l : List Char) : (String.mk l).data = l := rfl

/-- A string with a nonempty character list is not the empty string. -/
theorem str_ne_empty (s : String) (h : s.data ≠ []) : s ≠ "" := by
  intro he; subst he; exact h rfl

/-- A string of nonzero length is not the empty string. -/
theorem str_ne_empty_of_len (s : String) (h : s.length ≠ 0) : s ≠ "" := by
  intro he; subst he; exact h rfl

/-- After the two substitution passes of clean_filename no character is
    illegal and none is a space. -/
theorem trans_not_bad (a : Char) :
    badChar (spaceChar (sanitizeChar a)) = false ∧ spaceChar (sanitizeChar a) ≠ ' ' := by
  by_cases hb : badChar a = true
  · simp only [sanitizeChar, hb, if_true]
    decide
  · have hb2 : badChar a = false := by
      cases h : badChar a
      · rfl
      · exact absurd h hb
    have h1 : sanitizeChar a = a := by simp [sanitizeChar, hb2]
    rw [h1]
    by_cases hs : a = ' '
    · rw [hs]
      decide
    · have h2 : spaceChar a = a := by simp [spaceChar, hs]
      rw [h2]
      exact ⟨hb2, hs⟩

/-- A character that is a space or not strip-whitespace is mapped by the
    two substitution passes to a character that is not strip-whitespace. -/
theorem trans_not_ws (a : Char) (h : isStripWS a = false ∨ a = ' ') :
    isStripWS (spaceChar (sanitizeChar a)) = false := by
  by_cases hb : badChar a = true
  · simp only [sanitizeChar, hb, if_true]
    decide
  · have hb2 : badChar a = false := by
      cases hx : badChar a
      · rfl
      · exact absurd hx hb
    have h1 : sanitizeChar a = a := by simp [sanitizeChar, hb2]
    rw [h1]
    by_cases hs : a = ' '
    · rw [hs]
      decide
    · have h2 : spaceChar a = a := by simp [spaceChar, hs]
      rw [h2]
      rcases h with h | h
      · exact h
      · exact absurd h hs

/-- Membership in the stripped list implies membership in the original. -/
theorem mem_pyStrip_sub {l : List Char} {c : Char} (h : c ∈ pyStrip l) : c ∈ l := by
  unfold pyStrip at h
  rw [List.mem_reverse] at h
  have h1 := (List.dropWhile_sublist isStripWS).subset h
  rw [List.mem_reverse] at h1
  exact (List.dropWhile_sublist isStripWS).subset h1

/-- dropWhile keeps some witness that fails the predicate. -/
theorem dropWhile_keeps (w : Char → Bool) :
    ∀ (l : List Char), (∃ c ∈ l, w c = false) → ∃ c ∈ l.dropWhile w, w c = false := by
  intro l
  induction l with
  | nil =>
    rintro ⟨c, hc, _⟩
    exact absurd hc (List.not_mem_nil c)
  | cons a t ih =>
    rintro ⟨c, hc, hw⟩
    rw [List.dropWhile_cons]
    by_cases ha : w a = true
    · rw [if_pos ha]
      apply ih
      rcases List.mem_cons.mp hc with h | h
      · subst h
        rw [hw] at ha
        exact absurd ha (by decide)
      · exact ⟨c, h, hw⟩
    · rw [if_neg ha]
      exact ⟨c, hc, hw⟩

/-- A list holding a non-whitespace character does not strip to nil. -/
theorem pyStrip_keeps {l : List Char} (h : ∃ c ∈ l, isStripWS c = false) :
    pyStrip l ≠ [] := by
  unfold pyStrip
  intro hnil
  rw [List.reverse_eq_nil_iff] at hnil
  obtain ⟨c, hc, hw⟩ := dropWhile_keeps isStripWS l h
  have h2 := dropWhile_keeps isStripWS ((l.dropWhile isStripWS).reverse)
    ⟨c, List.mem_reverse.mpr hc, hw⟩
  rw [hnil] at h2
  obtain ⟨d, hd, _⟩ := h2
  exact absurd hd (List.not_mem_nil d)

/-- C4 (amended): for every input the Identifier Sanitizer output has length
    at most the configured cap of 50; absent or empty input yields the fixed
    fallback token; and any input holding at least one character that is not
    non-space whitespace yields a non-empty token.  (An input consisting
    solely of non-space whitespace characters sanitizes to the empty string,
    which is why the unqualified non-emptiness of the original claim fails.) -/
theorem C4_sanitizer_bounds (s : Option String) :
    (clean_filename s).length ≤ MAX_FOLDER_LENGTH ∧
    (s = none → clean_filename s = "Sin_nombre") ∧
    (s = some ("") → clean_filename s = "Sin_nombre") ∧
    (∀ t, s = some t → (∃ c ∈ t.data, isStripWS c = false ∨ c = ' ') →
      clean_filename s ≠ "") := by
  refine ⟨?_, ?_, ?_, ?_⟩
  · cases s with
    | none => decide
    | some t =>
      by_cases ht : t = ""
      · simp only [clean_filename, if_pos ht]
        decide
      · simp only [clean_filename, if_neg ht]
        show (List.take MAX_FOLDER_LENGTH _).length ≤ MAX_FOLDER_LENGTH
        rw [List.length_take]
        exact inf_le_left
  · rintro rfl
    rfl
  · rintro rfl
    simp [clean_filename]
  · rintro t rfl ⟨c, hc, hcw⟩
    have ht : t ≠ "" := by
      rintro rfl
      exact absurd hc (List.not_mem_nil c)
    simp only [clean_filename, if_neg ht]
    apply str_ne_empty
    show (pyStrip ((t.data.map sanitizeChar).map spaceChar)).take MAX_FOLDER_LENGTH ≠ []
    intro hnil
    rcases List.take_eq_nil_iff.mp hnil with h50 | hstrip
    · exact absurd h50 (by decide)
    · refine pyStrip_keeps ⟨spaceChar (sanitizeChar c), ?_, trans_not_ws c hcw⟩ hstrip
      exact List.mem_map.mpr ⟨sanitizeChar c, List.mem_map.mpr ⟨c, hc, rfl⟩, rfl⟩

/-- Witness for C4: a two letter input stays non-empty under the Sanitizer. -/
theorem C4_sanitizer_bounds_witness : clean_filename (some ("ab")) ≠ "" :=
  (C4_sanitizer_bounds (some ("ab"))).2.2.2 ("ab") rfl ⟨'a', by decide, Or.inl (by decide)⟩

/-- Counterexample for C4 as stated: the input holding a single tab character
    is neither empty nor missing, yet clean_filename maps it to the empty
    string, because the strip step runs after spaces were replaced and
    removes all remaining whitespace. -/
theorem C4_counterexample : clean_filename (some ("\t")) = "" ∧ ("\t" : String) ≠ "" := by
  constructor
  · decide
  · decide

/-- C5: for every raw name containing one of the illegal characters or a
    space, the Sanitizer output contains no illegal character and no space;
    in particular Jo:hn/Doe* sanitizes to Jo_hn_Doe_. -/
theorem C5_sanitizer_illegal (s : String)
    (h : ∃ c ∈ s.data, badChar c = true ∨ c = ' ') :
    (∀ c ∈ (clean_filename (some s)).data, badChar c = false ∧ c ≠ ' ') ∧
    clean_filename (some ("Jo:hn/Doe*")) = "Jo_hn_Doe_" := by
  constructor
  · intro c hc
    have hs : s ≠ "" := by
      rintro rfl
      obtain ⟨d, hd, _⟩ := h
      exact absurd hd (List.not_mem_nil d)
    simp only [clean_filename, if_neg hs, data_mk] at hc
    have hc2 : c ∈ (s.data.map sanitizeChar).map spaceChar :=
      mem_pyStrip_sub (List.take_subset _ _ hc)
    obtain ⟨b, hb, hbe⟩ := List.mem_map.mp hc2
    obtain ⟨a, ha, hae⟩ := List.mem_map.mp hb
    subst hbe
    subst hae
    exact trans_not_bad a
  · decide

/-- Witness for C5: the end-to-end scenario D name. -/
theorem C5_sanitizer_illegal_witness : clean_filename (some ("Jo:hn/Doe*")) = "Jo_hn_Doe_" :=
  (C5_sanitizer_illegal ("Jo:hn/Doe*") ⟨':', by decide, Or.inl (by decide)⟩).2

/-- create_safe_path never touches the files of the filesystem. -/
theorem csp_files (env : Env) :
    ∀ (subs : List String) (fs : FS) (path : List String),
      ((create_safe_path env fs path subs).2).files = fs.files := by
  intro subs
  induction subs with
  | nil =>
    intro fs path
    rfl
  | cons f rest ih =>
    intro fs path
    simp only [create_safe_path]
    by_cases h1 : (path ++ [f]) ∈ fs.dirs
    · rw [if_pos h1]
      exact ih fs (path ++ [f])
    · rw [if_neg h1]
      by_cases h2 : env.mkdirFails (path ++ [f]) = true
      · rw [if_pos h2]
      · rw [if_neg h2]
        exact ih _ (path ++ [f])

/-- create_safe_path never removes a directory. -/
theorem csp_dirs_mono (env : Env) :
    ∀ (subs : List String) (fs : FS) (path d : List String),
      d ∈ fs.dirs → d ∈ ((create_safe_path env fs path subs).2).dirs := by
  intro subs
  induction subs with
  | nil =>
    intro fs path d hd
    exact hd
  | cons f rest ih =>
    intro fs path d hd
    simp only [create_safe_path]
    by_cases h1 : (path ++ [f]) ∈ fs.dirs
    · rw [if_pos h1]
      exact ih fs (path ++ [f]) d hd
    · rw [if_neg h1]
      by_cases h2 : env.mkdirFails (path ++ [f]) = true
      · rw [if_pos h2]
        exact hd
      · rw [if_neg h2]
        exact ih _ (path ++ [f]) d (List.mem_cons_of_mem _ hd)

/-- Every directory present after create_safe_path was present before or is
    one of the cumulative level paths. -/
theorem csp_dirs_sub (env : Env) :
    ∀ (subs : List String) (fs : FS) (path d : List String),
      d ∈ ((create_safe_path env fs path subs).2).dirs →
      d ∈ fs.dirs ∨ ∃ j, 1 ≤ j ∧ j ≤ subs.length ∧ d = path ++ subs.take j := by
  intro subs
  induction subs with
  | nil =>
    intro fs path d hd
    exact Or.inl hd
  | cons f rest ih =>
    intro fs path d hd
    simp only [create_safe_path] at hd
    by_cases h1 : (path ++ [f]) ∈ fs.dirs
    · rw [if_pos h1] at hd
      rcases ih fs (path ++ [f]) d hd with h | ⟨j, hj1, hj2, hj3⟩
      · exact Or.inl h
      · refine Or.inr ⟨j + 1, by omega, by simp; omega, ?_⟩
        rw [List.take_succ_cons, List.append_cons]
        exact hj3
    · rw [if_neg h1] at hd
      by_cases h2 : env.mkdirFails (path ++ [f]) = true
      · rw [if_pos h2] at hd
        exact Or.inl hd
      · rw [if_neg h2] at hd
        rcases ih _ (path ++ [f]) d hd with h | ⟨j, hj1, hj2, hj3⟩
        · rcases List.mem_cons.mp h with h | h
          · refine Or.inr ⟨1, le_refl 1, by simp, ?_⟩
            simpa using h
          · exact Or.inl h
        · refine Or.inr ⟨j + 1, by omega, by simp; omega, ?_⟩
          rw [List.take_succ_cons, List.append_cons]
          exact hj3

/-- On success create_safe_path returns the full concatenated path. -/
theorem csp_some (env : Env) :
    ∀ (subs : List String) (fs : FS) (path sp : List String) (fs1 : FS),
      create_safe_path env fs path subs = (some sp, fs1) → sp = path ++ subs := by
  intro subs
  induction subs with
  | nil =>
    intro fs path sp fs1 h
    simp only [create_safe_path, Prod.mk.injEq, Option.some.injEq] at h
    rw [← h.1, List.append_nil]
  | cons f rest ih =>
    intro fs path sp fs1 h
    simp only [create_safe_path] at h
    by_cases h1 : (path ++ [f]) ∈ fs.dirs
    · rw [if_pos h1] at h
      rw [ih fs _ sp fs1 h]
      exact (List.append_cons path f rest).symm
    · rw [if_neg h1] at h
      by_cases h2 : env.mkdirFails (path ++ [f]) = true
      · rw [if_pos h2] at h
        exact absurd h (by simp)
      · rw [if_neg h2] at h
        rw [ih _ _ sp fs1 h]
        exact (List.append_cons path f rest).symm

/-- On success every cumulative level path exists afterwards. -/
theorem csp_some_levels (env : Env) :
    ∀ (subs : List String) (fs : FS) (path sp : List String) (fs1 : FS),
      create_safe_path env fs path subs = (some sp, fs1) →
      ∀ j, 1 ≤ j → j ≤ subs.length → (path ++ subs.take j) ∈ fs1.dirs := by
  intro subs
  induction subs with
  | nil =>
    intro fs path sp fs1 h j h1 h2
    simp at h2
    omega
  | cons f rest ih =>
    intro fs path sp fs1 h j h1 h2
    simp only [create_safe_path] at h
    obtain ⟨m, rfl⟩ : ∃ m, j = m + 1 := ⟨j - 1, by omega⟩
    rw [List.take_succ_cons, List.append_cons]
    by_cases hm : (path ++ [f]) ∈ fs.dirs
    · rw [if_pos hm] at h
      by_cases hz : m = 0
      · subst hz
        have hmem := csp_dirs_mono env rest fs (path ++ [f]) (path ++ [f]) hm
        rw [h] at hmem
        simpa using hmem
      · have := ih fs (path ++ [f]) sp fs1 h m (by omega) (by simp at h2; omega)
        exact this
    · rw [if_neg hm] at h
      by_cases h2f : env.mkdirFails (path ++ [f]) = true
      · rw [if_pos h2f] at h
        exact absurd h (by simp)
      · rw [if_neg h2f] at h
        by_cases hz : m = 0
        · subst hz
          have hmem := csp_dirs_mono env rest { fs with dirs := (path ++ [f]) :: fs.dirs }
            (path ++ [f]) (path ++ [f])
            (show (path ++ [f]) ∈ (path ++ [f]) :: fs.dirs from List.mem_cons_self _ _)
          rw [h] at hmem
          simpa using hmem
        · exact ih _ (path ++ [f]) sp fs1 h m (by omega) (by simp at h2; omega)

/-- When every level already exists, create_safe_path succeeds and leaves
    the filesystem unchanged. -/
theorem csp_all_exist (env : Env) :
    ∀ (subs : List String) (fs : FS) (path : List String),
      (∀ j, 1 ≤ j → j ≤ subs.length → (path ++ subs.take j) ∈ fs.dirs) →
      create_safe_path env fs path subs = (some (path ++ subs), fs) := by
  intro subs
  induction subs with
  | nil =>
    intro fs path h
    simp [create_safe_path]
  | cons f rest ih =>
    intro fs path h
    have h1 : (path ++ [f]) ∈ fs.dirs := by
      have := h 1 (le_refl 1) (by simp)
      simpa using this
    simp only [create_safe_path, if_pos h1]
    have h2 : ∀ j, 1 ≤ j → j ≤ rest.length → ((path ++ [f]) ++ rest.take j) ∈ fs.dirs := by
      intro j hj1 hj2
      have := h (j + 1) (by omega) (by simp; omega)
      rw [List.take_succ_cons, List.append_cons] at this
      exact this
    rw [ih fs (path ++ [f]) h2, List.append_cons path f rest]

/-- On failure create_safe_path leaves the files untouched, aborts at the
    first failing level k+1 (which is never created), and the directories
    afterwards are exactly the old ones plus the cumulative level paths
    strictly before the failing level. -/
theorem csp_none (env : Env) :
    ∀ (subs : List String) (fs : FS) (path : List String) (fs1 : FS),
      create_safe_path env fs path subs = (none, fs1) →
      fs1.files = fs.files ∧
      ∃ k, k < subs.length ∧
        env.mkdirFails (path ++ subs.take (k + 1)) = true ∧
        (path ++ subs.take (k + 1)) ∉ fs1.dirs ∧
        ∀ d, d ∈ fs1.dirs ↔
          (d ∈ fs.dirs ∨ ∃ j, 1 ≤ j ∧ j ≤ k ∧ d = path ++ subs.take j) := by
  intro subs
  induction subs with
  | nil =>
    intro fs path fs1 h
    simp [create_safe_path] at h
  | cons f rest ih =>
    intro fs path fs1 h
    simp only [create_safe_path] at h
    by_cases hm : (path ++ [f]) ∈ fs.dirs
    · rw [if_pos hm] at h
      obtain ⟨hf, k', hk1, hk2, hk3, hk4⟩ := ih fs (path ++ [f]) fs1 h
      refine ⟨hf, k' + 1, by simp; omega, ?_, ?_, ?_⟩
      · rw [List.take_succ_cons, List.append_cons]
        exact hk2
      · rw [List.take_succ_cons, List.append_cons]
        exact hk3
      · intro d
        rw [hk4 d]
        constructor
        · rintro (hd | ⟨j, hj1, hj2, hj3⟩)
          · exact Or.inl hd
          · refine Or.inr ⟨j + 1, by omega, by omega, ?_⟩
            rw [List.take_succ_cons, List.append_cons]
            exact hj3
        · rintro (hd | ⟨j, hj1, hj2, hj3⟩)
          · exact Or.inl hd
          · obtain ⟨m, rfl⟩ : ∃ m, j = m + 1 := ⟨j - 1, by omega⟩
            rw [List.take_succ_cons, List.append_cons] at hj3
            by_cases hz : m = 0
            · subst hz
              left
              rw [hj3]
              simpa using hm
            · exact Or.inr ⟨m, by omega, by omega, hj3⟩
    · rw [if_neg hm] at h
      by_cases h2 : env.mkdirFails (path ++ [f]) = true
      · rw [if_pos h2] at h
        have hfs : fs1 = fs := by
          have := congrArg Prod.snd h
          simpa using this.symm
        subst hfs
        refine ⟨rfl, 0, by simp, ?_, ?_, ?_⟩
        · simpa using h2
        · simpa using hm
        · intro d
          constructor
          · intro hd
            exact Or.inl hd
          · rintro (hd | ⟨j, hj1, hj2, _⟩)
            · exact hd
            · omega
      · rw [if_neg h2] at h
        obtain ⟨hf, k', hk1, hk2, hk3, hk4⟩ :=
          ih { fs with dirs := (path ++ [f]) :: fs.dirs } (path ++ [f]) fs1 h
        refine ⟨hf, k' + 1, by simp; omega, ?_, ?_, ?_⟩
        · rw [List.take_succ_cons, List.append_cons]
          exact hk2
        · rw [List.take_succ_cons, List.append_cons]
          exact hk3
        · intro d
          rw [hk4 d]
          constructor
          · rintro (hd | ⟨j, hj1, hj2, hj3⟩)
            · rcases List.mem_cons.mp hd with hd | hd
              · refine Or.inr ⟨1, le_refl 1, by omega, ?_⟩
                simpa using hd
              · exact Or.inl hd
            · refine Or.inr ⟨j + 1, by omega, by omega, ?_⟩
              rw [List.take_succ_cons, List.append_cons]
              exact hj3
          · rintro (hd | ⟨j, hj1, hj2, hj3⟩)
            · exact Or.inl (List.mem_cons_of_mem _ hd)
            · obtain ⟨m, rfl⟩ : ∃ m, j = m + 1 := ⟨j - 1, by omega⟩
              rw [List.take_succ_cons, List.append_cons] at hj3
              by_cases hz : m = 0
              · subst hz
                left
                rw [hj3]
                simp
              · exact Or.inr ⟨m, by omega, by omega, hj3⟩

/-- The length of String.mk is the list length. -/
theorem mk_length (l : List Char) : (String.mk l).length = l.length := rfl

/-- The target file path can never be one of the directory paths that
    create_safe_path creates for handle_store, because it has five segments
    while every created level has at most four. -/
theorem target_not_in_csp_dirs (ds : Dataset) (env : Env) (fs fsm : FS) (r : Option (List String))
    (hcr : create_safe_path env fs basePath (storeLevels ds env) = (r, fsm))
    (hnd : targetPath ds env ∉ fs.dirs) :
    targetPath ds env ∉ fsm.dirs := by
  intro hmem
  rcases csp_dirs_sub env (storeLevels ds env) fs basePath (targetPath ds env)
      (by rw [hcr]; exact hmem) with h | ⟨j, hj1, hj2, hj3⟩
  · exact hnd h
  · have hlev : (storeLevels ds env).length = 3 := rfl
    rw [hlev] at hj2
    have htl : (targetPath ds env).length = 5 := by
      show ((basePath ++ storeLevels ds env) ++ [storeFileName ds env]).length = 5
      rw [List.length_append, List.length_append, hlev]
      rfl
    have hlen := congrArg List.length hj3
    rw [htl, List.length_append, List.length_take, hlev] at hlen
    have hb1 : basePath.length = 1 := rfl
    rw [hb1] at hlen
    omega

/-- C1: for every incoming instance, fault environment and filesystem state,
    handle_store returns (it is a total function, the outer except of the
    source catches everything) and its status is one of exactly the four
    codes 0x0000, 0xC001, 0xC002 and 0xC003. -/
theorem C1_status_codes (ds : Dataset) (env : Env) (fs : FS) :
    (handle_store ds env fs).1 = 0x0000 ∨ (handle_store ds env fs).1 = 0xC001 ∨
    (handle_store ds env fs).1 = 0xC002 ∨ (handle_store ds env fs).1 = 0xC003 := by
  by_cases hu : env.unexpected = true
  · simp [handle_store, hu]
  · rcases hcr : create_safe_path env fs basePath (storeLevels ds env) with ⟨r, fsm⟩
    cases r with
    | none => simp [handle_store, hu, hcr]
    | some sp =>
      by_cases hdup : (sp ++ [storeFileName ds env]) ∈ fsm.files ∨
          (sp ++ [storeFileName ds env]) ∈ fsm.dirs
      · simp [handle_store, hu, hcr, hdup]
      · by_cases hsf : env.saveFails = true
        · simp [handle_store, hu, hcr, hdup, hsf]
        · simp [handle_store, hu, hcr, hdup, hsf]

/-- C6: when creating a directory level fails, handle_store returns 0xC001,
    writes no file (the files are untouched), removes no directory already
    present, and the resolver aborted at the first failing level k+1: that
    level is never created and every directory present afterwards is either
    an old one or a cumulative level path strictly before the failing one. -/
theorem C6_dir_failure (ds : Dataset) (env : Env) (fs : FS)
    (hu : env.unexpected = false)
    (hnone : (create_safe_path env fs basePath (storeLevels ds env)).1 = none) :
    (handle_store ds env fs).1 = 0xC001 ∧
    ((handle_store ds env fs).2).files = fs.files ∧
    (∀ d, d ∈ fs.dirs → d ∈ ((handle_store ds env fs).2).dirs) ∧
    ∃ k, k < (storeLevels ds env).length ∧
      env.mkdirFails (basePath ++ (storeLevels ds env).take (k + 1)) = true ∧
      (basePath ++ (storeLevels ds env).take (k + 1)) ∉ ((handle_store ds env fs).2).dirs ∧
      ∀ d, d ∈ ((handle_store ds env fs).2).dirs →
        d ∈ fs.dirs ∨ ∃ j, 1 ≤ j ∧ j ≤ k ∧ d = basePath ++ (storeLevels ds env).take j := by
  rcases hcr : create_safe_path env fs basePath (storeLevels ds env) with ⟨r, fsm⟩
  have hr : r = none := by
    rw [hcr] at hnone
    exact hnone
  subst hr
  have hhs : handle_store ds env fs = (0xC001, fsm) := by
    simp [handle_store, hu, hcr]
  rw [hhs]
  obtain ⟨hf, k, hk1, hk2, hk3, hk4⟩ := csp_none env (storeLevels ds env) fs basePath fsm hcr
  exact ⟨rfl, hf, fun d hd => (hk4 d).mpr (Or.inl hd),
    k, hk1, hk2, hk3, fun d hd => (hk4 d).mp hd⟩

/-- Witness for C6: with every mkdir call failing on the empty filesystem,
    handle_store reports the directory creation failure code. -/
theorem C6_dir_failure_witness : (handle_store ds0 envMkdirFail fs0).1 = 0xC001 :=
  (C6_dir_failure ds0 envMkdirFail fs0 rfl (by decide)).1

/-- C7: when the write fails on a fresh (non-duplicate) target, handle_store
    returns 0xC002 and never Success, and when the cleanup unlink does not
    itself fail, no partial file at the target remains afterwards. -/
theorem C7_write_failure (ds : Dataset) (env : Env) (fs : FS)
    (hu : env.unexpected = false)
    (hok : (create_safe_path env fs basePath (storeLevels ds env)).1.isSome = true)
    (hnf : targetPath ds env ∉ fs.files)
    (hnd : targetPath ds env ∉ fs.dirs)
    (hw : env.saveFails = true) :
    (handle_store ds env fs).1 = 0xC002 ∧
    (handle_store ds env fs).1 ≠ 0x0000 ∧
    (env.unlinkFails = false → targetPath ds env ∉ ((handle_store ds env fs).2).files) := by
  rcases hcr : create_safe_path env fs basePath (storeLevels ds env) with ⟨r, fsm⟩
  cases r with
  | none =>
    rw [hcr] at hok
    simp at hok
  | some sp =>
    have hsp : sp = basePath ++ storeLevels ds env := csp_some env _ fs _ sp fsm hcr
    have hfp : sp ++ [storeFileName ds env] = targetPath ds env := by
      rw [hsp]
      rfl
    have hfiles : fsm.files = fs.files := by
      have h := csp_files env (storeLevels ds env) fs basePath
      rw [hcr] at h
      exact h
    have hndm : targetPath ds env ∉ fsm.dirs :=
      target_not_in_csp_dirs ds env fs fsm (some sp) hcr hnd
    have hdup : ¬((sp ++ [storeFileName ds env]) ∈ fsm.files ∨
        (sp ++ [storeFileName ds env]) ∈ fsm.dirs) := by
      rw [hfp, hfiles]
      rintro (h | h)
      · exact hnf h
      · exact hndm h
    refine ⟨?_, ?_, ?_⟩
    · simp [handle_store, hu, hcr, hdup, hw]
    · simp [handle_store, hu, hcr, hdup, hw]
    · intro hul
      by_cases hdeb : env.writeDebris = true
      · have hres : ((handle_store ds env fs).2).files = fsm.files := by
          simp [handle_store, hu, hcr, hdup, hw, hul, hdeb, List.erase_cons_head]
        rw [hres, hfiles]
        exact hnf
      · have hres : ((handle_store ds env fs).2).files =
            fsm.files.erase (sp ++ [storeFileName ds env]) := by
          simp [handle_store, hu, hcr, hdup, hw, hul, hdeb]
        rw [hres, hfp, hfiles, List.erase_of_not_mem hnf]
        exact hnf

/-- Witness for C7: a failing save on the empty filesystem yields 0xC002. -/
theorem C7_write_failure_witness : (handle_store ds0 envSaveFail fs0).1 = 0xC002 :=
  (C7_write_failure ds0 envSaveFail fs0 rfl (by decide) (by decide) (by decide) rfl).1

/-- When the three UID attributes are present, the resolved segments do not
    depend on the environment (no generate_uid fallback fires). -/
theorem resolution_det (ds : Dataset) (env1 env2 : Env)
    (h1 : ds.StudyInstanceUID.isSome = true) (h2 : ds.SeriesInstanceUID.isSome = true)
    (h3 : ds.SOPInstanceUID.isSome = true) :
    studyFolder ds env1 = studyFolder ds env2 ∧
    seriesFolder ds env1 = seriesFolder ds env2 ∧
    storeFileName ds env1 = storeFileName ds env2 := by
  obtain ⟨su, hsu⟩ := Option.isSome_iff_exists.mp h1
  obtain ⟨se, hse⟩ := Option.isSome_iff_exists.mp h2
  obtain ⟨so, hso⟩ := Option.isSome_iff_exists.mp h3
  refine ⟨?_, ?_, ?_⟩
  · simp [studyFolder, resolvedStudyUid, hsu]
  · simp [seriesFolder, resolvedSeriesUid, hse]
  · simp [storeFileName, resolvedSopUid, hso]

/-- When the three UID attributes are present, the level list and the target
    path do not depend on the environment. -/
theorem levels_det (ds : Dataset) (env1 env2 : Env)
    (h1 : ds.StudyInstanceUID.isSome = true) (h2 : ds.SeriesInstanceUID.isSome = true)
    (h3 : ds.SOPInstanceUID.isSome = true) :
    storeLevels ds env1 = storeLevels ds env2 ∧ targetPath ds env1 = targetPath ds env2 := by
  obtain ⟨ha, hb, hc⟩ := resolution_det ds env1 env2 h1 h2 h3
  constructor
  · simp [storeLevels, ha, hb]
  · simp [targetPath, targetDir, storeLevels, ha, hb, hc]

/-- C3 (amended): for every instance in which the StudyInstanceUID,
    SeriesInstanceUID and SOPInstanceUID attributes are present, the path
    derivation of handle_store is deterministic across repeated invocations:
    the study folder, series folder, filename and full target path are
    independent of the per-invocation environment.  (The patient folder is
    independent of the environment by construction.)  Without the presence
    hypotheses this fails, since an absent UID draws a fresh generated
    identifier on every invocation. -/
theorem C3_resolution_deterministic (ds : Dataset) (env1 env2 : Env)
    (h1 : ds.StudyInstanceUID.isSome = true) (h2 : ds.SeriesInstanceUID.isSome = true)
    (h3 : ds.SOPInstanceUID.isSome = true) :
    studyFolder ds env1 = studyFolder ds env2 ∧
    seriesFolder ds env1 = seriesFolder ds env2 ∧
    storeFileName ds env1 = storeFileName ds env2 ∧
    targetPath ds env1 = targetPath ds env2 := by
  obtain ⟨ha, hb, hc⟩ := resolution_det ds env1 env2 h1 h2 h3
  obtain ⟨_, hd⟩ := levels_det ds env1 env2 h1 h2 h3
  exact ⟨ha, hb, hc, hd⟩

/-- Witness for C3: on a dataset carrying all three UIDs two invocations
    with different entropy resolve the same study folder. -/
theorem C3_resolution_deterministic_witness : studyFolder ds0 envA = studyFolder ds0 envB :=
  (C3_resolution_deterministic ds0 envA envB rfl rfl rfl).1

/-- Counterexample for C3 as stated: for a dataset whose StudyInstanceUID is
    absent, two invocations of the path derivation on the same dataset (each
    drawing fresh generate_uid entropy) resolve different storage locations. -/
theorem C3_counterexample :
    (studyFolder dsNoStudy envA, seriesFolder dsNoStudy envA, storeFileName dsNoStudy envA) ≠
    (studyFolder dsNoStudy envB, seriesFolder dsNoStudy envB, storeFileName dsNoStudy envB) := by
  decide

/-- The generated replacement identifier is longer than 12 characters. -/
theorem gen_uid_long (e : String) : 12 < (generate_uid e).length := by
  unfold generate_uid
  rw [mk_length, List.length_take, List.length_append]
  have h26 : ("1.2.826.0.1.3680043.8.498.".data).length = 26 := rfl
  rw [h26, Nat.lt_min]
  omega

/-- Shortening a generated identifier never yields the empty string. -/
theorem shorten_gen_ne (e : String) : shorten_uid (generate_uid e) ≠ "" := by
  have hlong := gen_uid_long e
  unfold shorten_uid
  rw [if_pos hlong]
  apply str_ne_empty
  rw [data_mk]
  intro hnil
  have hlen := congrArg List.length hnil
  rw [List.length_drop] at hlen
  have hds : (generate_uid e).data.length = (generate_uid e).length := rfl
  rw [hds] at hlen
  simp at hlen
  omega

/-- The study folder segment is never empty. -/
theorem studyFolder_ne (ds : Dataset) (env : Env) : studyFolder ds env ≠ "" := by
  apply str_ne_empty_of_len
  unfold studyFolder
  simp only [String.length_append]
  have h2 : ("_E" : String).length = 2 := rfl
  omega

/-- The series folder segment is never empty. -/
theorem seriesFolder_ne (ds : Dataset) (env : Env) : seriesFolder ds env ≠ "" := by
  apply str_ne_empty_of_len
  unfold seriesFolder
  simp only [String.length_append]
  have h2 : ("_S" : String).length = 2 := rfl
  omega

/-- The filename is never empty. -/
theorem storeFileName_ne (ds : Dataset) (env : Env) : storeFileName ds env ≠ "" := by
  apply str_ne_empty_of_len
  unfold storeFileName
  simp only [String.length_append]
  have h4 : (".dcm" : String).length = 4 := rfl
  omega

/-- C8: when the StudyInstanceUID, SeriesInstanceUID or SOPInstanceUID
    attribute is absent, a freshly generated identifier is substituted
    before the short-identifier derivation, so the shortened identifier and
    the study folder, series folder and filename segments derived from it
    are never empty. -/
theorem C8_missing_uids (ds : Dataset) (env : Env) :
    (ds.StudyInstanceUID = none →
      resolvedStudyUid ds env ≠ "" ∧ studyFolder ds env ≠ "") ∧
    (ds.SeriesInstanceUID = none →
      resolvedSeriesUid ds env ≠ "" ∧ seriesFolder ds env ≠ "") ∧
    (ds.SOPInstanceUID = none →
      resolvedSopUid ds env ≠ "" ∧ storeFileName ds env ≠ "") := by
  refine ⟨?_, ?_, ?_⟩
  · intro h
    have he : resolvedStudyUid ds env = shorten_uid (generate_uid env.genStudy) := by
      simp [resolvedStudyUid, h]
    rw [he]
    exact ⟨shorten_gen_ne _, studyFolder_ne ds env⟩
  · intro h
    have he : resolvedSeriesUid ds env = shorten_uid (generate_uid env.genSeries) := by
      simp [resolvedSeriesUid, h]
    rw [he]
    exact ⟨shorten_gen_ne _, seriesFolder_ne ds env⟩
  · intro h
    have he : resolvedSopUid ds env = shorten_uid (generate_uid env.genSop) := by
      simp [resolvedSopUid, h]
    rw [he]
    exact ⟨shorten_gen_ne _, storeFileName_ne ds env⟩

/-- Witness for C8: on the dataset with every attribute absent the resolved
    study identifier and study folder are non-empty. -/
theorem C8_missing_uids_witness :
    resolvedStudyUid dsBare envA ≠ "" ∧ studyFolder dsBare envA ≠ "" :=
  (C8_missing_uids dsBare envA).1 rfl

/-- Appending the empty string is the identity. -/
theorem app_empty (s : String) : s ++ "" = s := by
  cases s with
  | mk d =>
    show String.mk (d ++ []) = String.mk d
    rw [List.append_nil]

/-- C9: a UID attribute that is present but holds an empty value is used
    as-is (the generated fallback fires only on absence), the shortened
    identifier is then empty, and the corresponding path component
    degenerates: the study folder ends in the bare E marker, the series
    folder in the bare S marker, and the filename drops the SOP segment. -/
theorem C9_empty_uid_used_as_is (ds : Dataset) (env : Env) :
    (∀ u, ds.StudyInstanceUID = some u → resolvedStudyUid ds env = shorten_uid u) ∧
    (∀ u, ds.SeriesInstanceUID = some u → resolvedSeriesUid ds env = shorten_uid u) ∧
    (∀ u, ds.SOPInstanceUID = some u → resolvedSopUid ds env = shorten_uid u) ∧
    (ds.StudyInstanceUID = some ("") →
      resolvedStudyUid ds env = "" ∧ studyFolder ds env = studyDateOf ds ++ "_E") ∧
    (ds.SeriesInstanceUID = some ("") →
      resolvedSeriesUid ds env = "" ∧ seriesFolder ds env = modalityOf ds ++ "_S") ∧
    (ds.SOPInstanceUID = some ("") →
      resolvedSopUid ds env = "" ∧
      storeFileName ds env = modalityOf ds ++ "_" ++ instanceNumberOf ds ++ "_" ++ ".dcm") := by
  refine ⟨?_, ?_, ?_, ?_, ?_, ?_⟩
  · intro u h
    simp [resolvedStudyUid, h]
  · intro u h
    simp [resolvedSeriesUid, h]
  · intro u h
    simp [resolvedSopUid, h]
  · intro h
    have he : resolvedStudyUid ds env = "" := by
      simp [resolvedStudyUid, h, shorten_uid]
    refine ⟨he, ?_⟩
    unfold studyFolder
    rw [he, app_empty]
  · intro h
    have he : resolvedSeriesUid ds env = "" := by
      simp [resolvedSeriesUid, h, shorten_uid]
    refine ⟨he, ?_⟩
    unfold seriesFolder
    rw [he, app_empty]
  · intro h
    have he : resolvedSopUid ds env = "" := by
      simp [resolvedSopUid, h, shorten_uid]
    refine ⟨he, ?_⟩
    unfold storeFileName
    rw [he, app_empty]

/-- Witness for C9: the dataset whose UID attributes hold empty values
    resolves the degenerate study folder 20240101_E. -/
theorem C9_empty_uid_used_as_is_witness :
    resolvedStudyUid dsEmptyUids envA = "" ∧
    studyFolder dsEmptyUids envA = studyDateOf dsEmptyUids ++ "_E" :=
  (C9_empty_uid_used_as_is dsEmptyUids envA).2.2.2.1 rfl

/-- C10: the modality and study date are inserted verbatim, with no
    sanitization and no length cap, into the study folder, series folder and
    filename: the segments are exactly the concatenations built by
    handle_store, and every character of the modality and the study date,
    including path-illegal ones, appears unchanged in those segments. -/
theorem C10_verbatim_metadata (ds : Dataset) (env : Env) :
    studyFolder ds env = studyDateOf ds ++ "_E" ++ resolvedStudyUid ds env ∧
    seriesFolder ds env = modalityOf ds ++ "_S" ++ resolvedSeriesUid ds env ∧
    storeFileName ds env =
      modalityOf ds ++ "_" ++ instanceNumberOf ds ++ "_" ++ resolvedSopUid ds env ++ ".dcm" ∧
    (∀ c ∈ (modalityOf ds).data,
      c ∈ (seriesFolder ds env).data ∧ c ∈ (storeFileName ds env).data) ∧
    (∀ c ∈ (studyDateOf ds).data, c ∈ (studyFolder ds env).data) := by
  refine ⟨rfl, rfl, rfl, ?_, ?_⟩
  · intro c hc
    constructor
    · show c ∈ ((modalityOf ds ++ "_S") ++ resolvedSeriesUid ds env).data
      rw [String.data_append, String.data_append]
      exact List.mem_append_left _ (List.mem_append_left _ hc)
    · show c ∈ (((((modalityOf ds ++ "_") ++ instanceNumberOf ds) ++ "_") ++
        resolvedSopUid ds env) ++ ".dcm").data
      rw [String.data_append, String.data_append, String.data_append,
        String.data_append, String.data_append]
      exact List.mem_append_left _ (List.mem_append_left _ (List.mem_append_left _
        (List.mem_append_left _ (List.mem_append_left _ hc))))
  · intro c hc
    show c ∈ ((studyDateOf ds ++ "_E") ++ resolvedStudyUid ds env).data
    rw [String.data_append, String.data_append]
    exact List.mem_append_left _ (List.mem_append_left _ hc)

/-- Witness for C10: the slash of the modality C/T:x appears unchanged in
    the series folder and in the filename. -/
theorem C10_verbatim_metadata_witness :
    '/' ∈ (seriesFolder dsIllegal envA).data ∧ '/' ∈ (storeFileName dsIllegal envA).data :=
  (C10_verbatim_metadata dsIllegal envA).2.2.2.1 '/' (by decide)

/-- C2 (amended): (a) when every directory level already exists and a file
    already exists at the fully resolved target path, handle_store returns
    Success and leaves the filesystem completely unchanged; (b) for an
    instance carrying its three UID attributes (so that resolution does not
    draw fresh identifiers), persisting it twice from a state without the
    target file yields exactly one file at the target and two Success
    outcomes, the second invocation being the duplicate no-op.  Without the
    UID presence hypotheses the idempotence half fails, since each receipt
    of a UID-less instance resolves a fresh filename. -/
theorem C2_duplicate_idempotent :
    (∀ (ds : Dataset) (env : Env) (fs : FS),
      env.unexpected = false →
      (∀ j, 1 ≤ j → j ≤ (storeLevels ds env).length →
        (basePath ++ (storeLevels ds env).take j) ∈ fs.dirs) →
      targetPath ds env ∈ fs.files →
      handle_store ds env fs = (0x0000, fs)) ∧
    (∀ (ds : Dataset) (env1 env2 : Env) (fs : FS),
      ds.StudyInstanceUID.isSome = true → ds.SeriesInstanceUID.isSome = true →
      ds.SOPInstanceUID.isSome = true →
      env1.unexpected = false → env2.unexpected = false →
      targetPath ds env1 ∉ fs.files → targetPath ds env1 ∉ fs.dirs →
      (handle_store ds env1 fs).1 = 0x0000 →
      ((handle_store ds env1 fs).2).files = targetPath ds env1 :: fs.files ∧
      handle_store ds env2 ((handle_store ds env1 fs).2) =
        (0x0000, (handle_store ds env1 fs).2) ∧
      (((handle_store ds env2 ((handle_store ds env1 fs).2)).2).files.count
        (targetPath ds env1)) = 1) := by
  constructor
  · intro ds env fs hu hdirs hfile
    have hcr := csp_all_exist env (storeLevels ds env) fs basePath hdirs
    have hdup : (basePath ++ (storeLevels ds env ++ [storeFileName ds env])) ∈ fs.files ∨
        (basePath ++ (storeLevels ds env ++ [storeFileName ds env])) ∈ fs.dirs := by
      left
      rw [← List.append_assoc]
      exact hfile
    simp [handle_store, hu, hcr, hdup]
  · intro ds env1 env2 fs hs1 hs2 hs3 hu1 hu2 hnf hnd h1
    obtain ⟨hlev, htp⟩ := levels_det ds env1 env2 hs1 hs2 hs3
    rcases hcr : create_safe_path env1 fs basePath (storeLevels ds env1) with ⟨r, fsm⟩
    cases r with
    | none =>
      exfalso
      have hbad : (handle_store ds env1 fs).1 = 0xC001 := by
        simp [handle_store, hu1, hcr]
      rw [hbad] at h1
      simp at h1
    | some sp =>
      have hsp : sp = basePath ++ storeLevels ds env1 := csp_some env1 _ fs _ sp fsm hcr
      have hfp : sp ++ [storeFileName ds env1] = targetPath ds env1 := by
        rw [hsp]
        rfl
      have hfiles : fsm.files = fs.files := by
        have h := csp_files env1 (storeLevels ds env1) fs basePath
        rw [hcr] at h
        exact h
      have hndm : targetPath ds env1 ∉ fsm.dirs :=
        target_not_in_csp_dirs ds env1 fs fsm (some sp) hcr hnd
      have hdup : ¬((sp ++ [storeFileName ds env1]) ∈ fsm.files ∨
          (sp ++ [storeFileName ds env1]) ∈ fsm.dirs) := by
        rw [hfp, hfiles]
        rintro (h | h)
        · exact hnf h
        · exact hndm h
      by_cases hsf : env1.saveFails = true
      · exfalso
        have hbad : (handle_store ds env1 fs).1 = 0xC002 := by
          simp [handle_store, hu1, hcr, hdup, hsf]
        rw [hbad] at h1
        simp at h1
      · have hrun1 : handle_store ds env1 fs =
            (0x0000, { fsm with files := (sp ++ [storeFileName ds env1]) :: fsm.files }) := by
          simp [handle_store, hu1, hcr, hdup, hsf]
        have hlevels : ∀ j, 1 ≤ j → j ≤ (storeLevels ds env2).length →
            (basePath ++ (storeLevels ds env2).take j) ∈
              ({ fsm with files := (sp ++ [storeFileName ds env1]) :: fsm.files } : FS).dirs := by
          rw [← hlev]
          intro j hj1 hj2
          exact csp_some_levels env1 (storeLevels ds env1) fs basePath sp fsm hcr j hj1 hj2
        have hcr2 := csp_all_exist env2 (storeLevels ds env2)
          ({ fsm with files := (sp ++ [storeFileName ds env1]) :: fsm.files }) basePath hlevels
        have he : basePath ++ (storeLevels ds env2 ++ [storeFileName ds env2]) =
            sp ++ [storeFileName ds env1] := by
          rw [← List.append_assoc, hfp]
          show targetPath ds env2 = targetPath ds env1
          exact htp.symm
        have hrun2 : handle_store ds env2
            ({ fsm with files := (sp ++ [storeFileName ds env1]) :: fsm.files }) =
            (0x0000, { fsm with files := (sp ++ [storeFileName ds env1]) :: fsm.files }) := by
          simp [handle_store, hu2, hcr2, he]
        rw [hrun1]
        refine ⟨?_, ?_, ?_⟩
        · show (sp ++ [storeFileName ds env1]) :: fsm.files = targetPath ds env1 :: fs.files
          rw [hfp, hfiles]
        · exact hrun2
        · rw [hrun2]
          show ((sp ++ [storeFileName ds env1]) :: fsm.files).count (targetPath ds env1) = 1
          rw [hfp, hfiles, List.count_cons_self, List.count_eq_zero.mpr hnf]

/-- Witness for C2: the second submission of the fully identified instance
    is answered with Success and leaves the filesystem unchanged. -/
theorem C2_duplicate_idempotent_witness :
    handle_store ds0 envB ((handle_store ds0 envA fs0).2) =
      (0x0000, (handle_store ds0 envA fs0).2) :=
  (C2_duplicate_idempotent.2 ds0 envA envB fs0 rfl rfl rfl rfl rfl (by decide) (by decide)
    (by decide)).2.1

/-- Counterexample for C2 as stated: submitting the same instance (one whose
    SOPInstanceUID attribute is absent) twice yields two Success outcomes but
    two distinct files on disk, because each invocation generates a fresh
    identifier for the missing SOP UID and therefore a fresh filename. -/
theorem C2_counterexample :
    (handle_store dsNoSop envA fs0).1 = 0x0000 ∧
    (handle_store dsNoSop envB (handle_store dsNoSop envA fs0).2).1 = 0x0000 ∧
    ((handle_store dsNoSop envB (handle_store dsNoSop envA fs0).2).2).files.length = 2 := by
  refine ⟨by decide, by decide, by decide⟩
